import Mathlib

/-!
Shallow embedding of the radio appliance's playback-orchestration core
(`src/backend/core/radio_manager.py`, `src/backend/core/models.py`,
`src/backend/hardware/gpio_controller.py`, `src/backend/hardware/audio_player.py`).

The orchestrator (`RadioManager`) is modelled as a pure state-transition
function on `SystemStatus`.  Every externally observable effect — a
status-sink broadcast (`_broadcast_status_update`), or a call into the
audio backend (`AudioPlayer.play` / `stop` / `set_volume`) — is recorded
in an observation trace, in program order.  The audio backend is the mock
implementation (always succeeds); where a real backend could fail or
raise, the outcome is a boolean parameter of the operation so both
branches of the Python code are represented.

The GPIO dispatcher (`GPIOController`) is modelled per control: the
mutable per-pin dictionaries `_last_press_times` / `_press_counts`
become a `ControlState`, timestamps are exact rationals, and a complete
press/release interaction is processed by `process_interaction`.
-/

set_option autoImplicit false

namespace RadioCore

/-- Playback state enum, from `PlaybackState` in `core/models.py`. -/
inductive PlaybackState
  | stopped
  | playing
  | paused
  | connecting
  | error
deriving DecidableEq, Repr

/-- A configured radio station, restricted to the fields the orchestrator
reads (`station.name` for logging, `station.url` passed to the backend);
from `RadioStation` in `core/models.py`. -/
structure RadioStation where
  name : String
  url : String
deriving DecidableEq, Repr

/-- System status, from `SystemStatus` in `core/models.py`: the fields the
orchestrator mutates (`uptime` is never touched by `RadioManager` and is
omitted). -/
structure SystemStatus where
  current_station : Option Nat
  volume : Int
  is_playing : Bool
  playback_state : PlaybackState
  current_station_info : Option RadioStation
deriving DecidableEq, Repr

/-- One externally observable effect of an orchestrator operation:
a status broadcast with its message type tag and the status snapshot
serialized at that moment, or a call into the audio backend. -/
inductive Obs
  | statusCast (tag : String) (snap : SystemStatus)
  | audioStart (url : String)
  | audioStop
  | audioSetVolume (v : Int)
deriving DecidableEq, Repr

/-- The three station slots of `StationManager` (`_stations = {1: …, 2: …, 3: …}`);
a `none` entry is an empty slot. -/
structure StationConfig where
  s1 : Option RadioStation
  s2 : Option RadioStation
  s3 : Option RadioStation
deriving DecidableEq, Repr

/-- `StationManager.get_station`: returns the slot's entry for slots 1-3
(outer `some`), and raises `ValueError` for any other slot (outer `none`). -/
def getStation (cfg : StationConfig) (slot : Nat) : Option (Option RadioStation) :=
  if slot = 1 then some cfg.s1
  else if slot = 2 then some cfg.s2
  else if slot = 3 then some cfg.s3
  else none

/-- The default stations of `StationManager._default_stations`. -/
def defaultConfig : StationConfig :=
  { s1 := some { name := "SRF 3", url := "https://stream.srg-ssr.ch/m/srf3/mp3_128" }
    s2 := some { name := "Radio Swiss Jazz", url := "https://stream.srg-ssr.ch/m/rsj/mp3_128" }
    s3 := some { name := "Radio Swiss Classic", url := "https://stream.srg-ssr.ch/m/rsc_de/mp3_128" } }

/-- Volume clamping `max(0, min(100, volume))` as in `RadioManager.set_volume`
and `RadioManager._handle_volume_change`. -/
def clampVolume (v : Int) : Int := max 0 (min 100 v)

/-- The status created in `RadioManager.__init__`:
`SystemStatus(volume=config.DEFAULT_VOLUME, is_playing=False, playback_state=STOPPED)`
with the optional fields at their pydantic defaults (`None`). -/
def initStatus (defaultVolume : Int) : SystemStatus :=
  { current_station := none
    volume := defaultVolume
    is_playing := false
    playback_state := .stopped
    current_station_info := none }

/-- `RadioManager.play_station(slot)`.  `ok` is the result of the
`self._audio_player.play(station.url)` call (the mock backend always
returns `True`; `ok = false` covers both the real backend returning
`False` and it raising — the `except` block performs exactly the same
status updates and broadcast as the failure branch).  An invalid slot
makes `get_station` raise `ValueError`, which the `except` block catches. -/
def play_station (cfg : StationConfig) (ok : Bool) (st : SystemStatus) (slot : Nat) :
    SystemStatus × List Obs × Bool :=
  match getStation cfg slot with
  | none =>
      -- ValueError from get_station, caught by the except block
      let st2 : SystemStatus :=
        { st with is_playing := false, playback_state := .error, current_station := none }
      (st2, [Obs.statusCast "playback_status" st2], false)
  | some none => (st, [], false)
  | some (some station) =>
      let stopCalls : List Obs := if st.is_playing then [Obs.audioStop] else []
      let st1 : SystemStatus :=
        { st with playback_state := .connecting, current_station := some slot }
      if ok then
        let st2 : SystemStatus := { st1 with is_playing := true, playback_state := .playing }
        (st2,
         stopCalls ++ [Obs.statusCast "playback_status" st1, Obs.audioStart station.url,
                       Obs.statusCast "playback_status" st2],
         true)
      else
        let st2 : SystemStatus :=
          { st1 with is_playing := false, playback_state := .error, current_station := none }
        (st2,
         stopCalls ++ [Obs.statusCast "playback_status" st1, Obs.audioStart station.url,
                       Obs.statusCast "playback_status" st2],
         false)

/-- `RadioManager.stop_playback()`: unconditionally calls
`self._audio_player.stop()`, resets the status fields, broadcasts, and
returns `True` (the mock backend's `stop` never raises). -/
def stop_playback (st : SystemStatus) : SystemStatus × List Obs × Bool :=
  let st2 : SystemStatus :=
    { st with is_playing := false, playback_state := .stopped,
              current_station := none, current_station_info := none }
  (st2, [Obs.audioStop, Obs.statusCast "playback_status" st2], true)

/-- `RadioManager.set_volume(volume, broadcast)`.  `raises` models the
`self._audio_player.set_volume` call raising (impossible for the mock
backend but caught by the `except` block, which leaves the status
untouched and returns `False`). -/
def set_volume (raises : Bool) (st : SystemStatus) (volume : Int) (broadcast : Bool) :
    SystemStatus × List Obs × Bool :=
  if raises then (st, [], false)
  else
    let v := clampVolume volume
    let st2 : SystemStatus := { st with volume := v }
    (st2,
     [Obs.audioSetVolume v] ++ (if broadcast then [Obs.statusCast "volume_update" st2] else []),
     true)

/-- `RadioManager.toggle_station(slot)`: stop and return `False` when the
requested slot is the currently playing one, otherwise play it and
return the play result. -/
def toggle_station (cfg : StationConfig) (ok : Bool) (st : SystemStatus) (slot : Nat) :
    SystemStatus × List Obs × Bool :=
  if st.current_station = some slot ∧ st.is_playing = true then
    let r := stop_playback st
    (r.1, r.2.1, false)
  else
    play_station cfg ok st slot

/-- `RadioManager._handle_volume_change(change)`: clamp the target volume
and call `set_volume` (with its default `broadcast=True`) only when it
differs from the current volume. -/
def handle_volume_change (raises : Bool) (st : SystemStatus) (change : Int) :
    SystemStatus × List Obs :=
  let newVolume := clampVolume (st.volume + change)
  if newVolume ≠ st.volume then
    let r := set_volume raises st newVolume true
    (r.1, r.2.1)
  else
    (st, [])

/-- GPIO pin of station button 1 (`Config.BUTTON_PIN_1` in `main.py`). -/
def BUTTON_PIN_1 : Nat := 17

/-- GPIO pin of station button 2 (`Config.BUTTON_PIN_2` in `main.py`). -/
def BUTTON_PIN_2 : Nat := 16

/-- GPIO pin of station button 3 (`Config.BUTTON_PIN_3` in `main.py`). -/
def BUTTON_PIN_3 : Nat := 26

/-- The `pin_to_slot` dictionary of `RadioManager._handle_button_press`. -/
def pinToSlot (pin : Nat) : Option Nat :=
  if pin = BUTTON_PIN_1 then some 1
  else if pin = BUTTON_PIN_2 then some 2
  else if pin = BUTTON_PIN_3 then some 3
  else none

/-- The `pin_map` dictionary of `RadioManager.simulate_button_press`. -/
def buttonToPin (button : Nat) : Option Nat :=
  if button = 1 then some BUTTON_PIN_1
  else if button = 2 then some BUTTON_PIN_2
  else if button = 3 then some BUTTON_PIN_3
  else none

/-- `RadioManager._handle_button_press(button_pin)`: map the pin to a slot
and toggle it; unknown pins are logged and ignored. -/
def handle_button_press (cfg : StationConfig) (ok : Bool) (st : SystemStatus) (pin : Nat) :
    SystemStatus × List Obs :=
  match pinToSlot pin with
  | some slot =>
      let r := toggle_station cfg ok st slot
      (r.1, r.2.1)
  | none => (st, [])

/-- `RadioManager.simulate_button_press(button)` in mock mode: map the
button number through `pin_map` and re-enter `_handle_button_press`;
invalid button numbers are logged and ignored. -/
def simulate_button_press (cfg : StationConfig) (ok : Bool) (st : SystemStatus) (button : Nat) :
    SystemStatus × List Obs :=
  match buttonToPin button with
  | some pin => handle_button_press cfg ok st pin
  | none => (st, [])

/-- One serialized orchestrator operation, with the backend outcomes it
may depend on (`ok`: result of the backend `play` call; `raises`: the
backend `set_volume` call raising). -/
inductive RadioOp
  | play (slot : Nat) (ok : Bool)
  | stop
  | toggle (slot : Nat) (ok : Bool)
  | setVol (v : Int) (broadcast : Bool) (raises : Bool)
  | volChange (d : Int) (raises : Bool)
deriving DecidableEq, Repr

/-- Run one operation, keeping its observation trace. -/
def runOp (cfg : StationConfig) (st : SystemStatus) : RadioOp → SystemStatus × List Obs
  | .play slot ok =>
      let r := play_station cfg ok st slot
      (r.1, r.2.1)
  | .stop =>
      let r := stop_playback st
      (r.1, r.2.1)
  | .toggle slot ok =>
      let r := toggle_station cfg ok st slot
      (r.1, r.2.1)
  | .setVol v broadcast raises =>
      let r := set_volume raises st v broadcast
      (r.1, r.2.1)
  | .volChange d raises => handle_volume_change raises st d

/-- Run a serialized sequence of operations (the exclusivity lock of the
orchestrator totally orders the mutating operations), concatenating the
observation traces in order. -/
def run (cfg : StationConfig) (st : SystemStatus) : List RadioOp → SystemStatus × List Obs
  | [] => (st, [])
  | op :: ops =>
      let r1 := runOp cfg st op
      let r2 := run cfg r1.1 ops
      (r2.1, r1.2 ++ r2.2)

/-- The status snapshots serialized into sink notifications, in order. -/
def statusSnaps (obs : List Obs) : List SystemStatus :=
  obs.filterMap fun o =>
    match o with
    | .statusCast _ snap => some snap
    | _ => none

/-- Whether a trace of backend calls never starts a stream while another
one is active (`b` is whether a stream is active at the start). -/
def audioNoOverlap (b : Bool) : List Obs → Bool
  | [] => true
  | .audioStart _ :: rest => if b then false else audioNoOverlap true rest
  | .audioStop :: rest => audioNoOverlap false rest
  | .audioSetVolume _ :: rest => audioNoOverlap b rest
  | .statusCast _ _ :: rest => audioNoOverlap b rest

/-- The four playback-mutating public operations of `RadioManager`. -/
inductive MutatingOp
  | play
  | stop
  | toggle
  | setVolume
deriving DecidableEq, Repr

/-- Which of the mutating operations wrap their entire body in
`async with self._playback_lock` in `radio_manager.py`: `play_station`
and `stop_playback` do; `toggle_station` and `set_volume` contain no
lock acquisition (toggle's check-then-act runs outside the lock and its
mutations happen inside the locked `play_station` / `stop_playback` it
calls). -/
def holdsPlaybackLock : MutatingOp → Bool
  | .play => true
  | .stop => true
  | .toggle => false
  | .setVolume => false

/-- Long-press threshold in seconds (`Config.LONG_PRESS_DURATION` in `main.py`). -/
def LONG_PRESS_DURATION : Rat := 3

/-- Triple-press window in seconds (`Config.TRIPLE_PRESS_INTERVAL` in `main.py`). -/
def TRIPLE_PRESS_INTERVAL : Rat := 1 / 2

/-- Per-control dispatcher state: the entries of the `GPIOController`
dictionaries `_button_states` (read and written by the edge handler
`_handle_button_event` and read by `_monitor_long_press`),
`_last_press_times` (initialized to `0`; the only write is
`self._last_press_times[gpio_pin] = release_time` at the end of
`_handle_button_release`) and `_press_counts` (initialized to `0`). -/
structure ControlState where
  button_state : Bool
  last_press_time : Rat
  press_count : Nat
deriving DecidableEq, Repr

/-- A control's state after `_initialize_hardware`: `_button_states[pin]`
starts out `True` (line 119, pulled up by default — which makes the edge
handler swallow the first press edge), the timing dictionaries at `0`. -/
def initControlState : ControlState :=
  { button_state := true, last_press_time := 0, press_count := 0 }

/-- A logical event produced by the dispatcher: `shortPress` is
`_handle_short_press` invoking the button callback, `longPress` is the
long-press monitor reaching `_handle_long_press`, `triplePress` is
`_check_triple_press` reaching `_handle_triple_press`. -/
inductive ButtonEvent
  | shortPress
  | longPress
  | triplePress
deriving DecidableEq, Repr

/-- `GPIOController._check_triple_press(gpio_pin, release_time)` (called
with the release timestamp): if the gap from the stored previous time is
inside the window, increment the count and fire when it reaches 2
(the code's `if self._press_counts[gpio_pin] >= 2` after the increment),
resetting to 0; otherwise reset the count to 1. -/
def check_triple_press (s : ControlState) (releaseTime : Rat) : ControlState × List ButtonEvent :=
  if releaseTime - s.last_press_time < TRIPLE_PRESS_INTERVAL then
    let c := s.press_count + 1
    if 2 ≤ c then ({ s with press_count := 0 }, [ButtonEvent.triplePress])
    else ({ s with press_count := c }, [])
  else
    ({ s with press_count := 1 }, [])

/-- `GPIOController._handle_button_release(gpio_pin, release_time)` for
one control.  `isRotary` is `gpio_pin == self.config.ROTARY_SW` (the
triple-press check runs only for the rotary switch).  Faithful detail:
`press_time` is read from `_last_press_times`, whose only ever-written
value is the previous interaction's release time — `_handle_button_press`
never stores the press timestamp — so `press_duration` is really the gap
since the previous release (or `0` while the stored value is `0`). -/
def handle_button_release (isRotary : Bool) (s : ControlState) (releaseTime : Rat) :
    ControlState × List ButtonEvent :=
  let pressTime := s.last_press_time
  let pressDuration : Rat := if 0 < pressTime then releaseTime - pressTime else 0
  let r1 := if isRotary then check_triple_press s releaseTime else (s, [])
  let shortEvents : List ButtonEvent :=
    if pressDuration < LONG_PRESS_DURATION then [ButtonEvent.shortPress] else []
  ({ r1.1 with last_press_time := releaseTime }, r1.2 ++ shortEvents)

/-- Whether the cancellable `_monitor_long_press` task emits a long
press.  The task only exists when the press edge was actually handled by
`_handle_button_event` (`pressHandled`; a swallowed edge never reaches
`_handle_button_press`) and the control is the rotary switch.  It sleeps
`LONG_PRESS_DURATION` from the press and then emits only if
`_button_states.get(gpio_pin, False)` is still `True` — which, after a
handled press edge set it `True`, holds exactly until the release edge
clears it — so in the cooperative schedule it fires iff the release
comes strictly after `press + LONG_PRESS_DURATION` (otherwise the
release cancels the still-sleeping task). -/
def long_press_fires (pressHandled isRotary : Bool) (pressTime releaseTime : Rat) : Bool :=
  pressHandled && isRotary && decide (pressTime + LONG_PRESS_DURATION < releaseTime)

/-- One full press/release interaction of a control through the
hardware edge handler `_handle_button_event`: the press edge is handled
only when `_button_states[pin]` is `False` at that moment (after the
hardware initialization to `True`, the first press edge after startup is
swallowed); a handled press edge sets `_button_states[pin] := True` and
runs `_handle_button_press`, which starts the long-press monitor for the
rotary switch; the release edge then finds `_button_states[pin]` `True`
either way, clears it, and runs `_handle_button_release`.  (In the
mock/simulate path `simulate_button_press` bypasses the edge handler and
never sets `_button_states`, so there the monitor's check always fails
and a `longPress` can never be emitted at all.) -/
def process_interaction (isRotary : Bool) (s : ControlState) (pressTime releaseTime : Rat) :
    ControlState × List ButtonEvent :=
  let pressHandled := !s.button_state
  let longEvents : List ButtonEvent :=
    if long_press_fires pressHandled isRotary pressTime releaseTime then [ButtonEvent.longPress]
    else []
  let r := handle_button_release isRotary s releaseTime
  ({ r.1 with button_state := false }, longEvents ++ r.2)

/-- A sequence of press/release interactions `(pressTime, releaseTime)`
of one control, in chronological order. -/
def process_interactions (isRotary : Bool) (s : ControlState) :
    List (Rat × Rat) → ControlState × List ButtonEvent
  | [] => (s, [])
  | (p, r) :: rest =>
      let r1 := process_interaction isRotary s p r
      let r2 := process_interactions isRotary r1.1 rest
      (r2.1, r1.2 ++ r2.2)

/-- The status invariant claimed by the spec, verbatim:
`is_playing == true` iff `playback_state == Playing`, and
`current_slot` set iff a play attempt is in flight (`Connecting`) or
succeeded (`Playing`). -/
def specStatusInv (s : SystemStatus) : Prop :=
  (s.is_playing = true ↔ s.playback_state = .playing) ∧
  ((s.current_station ≠ none) ↔
    (s.playback_state = .connecting ∨ s.playback_state = .playing))

/-- The invariant that actually holds at every observable point (sink
notification snapshot): the forward direction `Playing → is_playing`
always holds, but `is_playing` only forces `Playing ∨ Connecting`,
because a `play` issued while a stream is active broadcasts its
`Connecting` snapshot before `is_playing` is updated. -/
def obsStatusInv (s : SystemStatus) : Prop :=
  (s.playback_state = .playing → s.is_playing = true) ∧
  (s.is_playing = true → s.playback_state = .playing ∨ s.playback_state = .connecting) ∧
  ((s.current_station ≠ none) ↔
    (s.playback_state = .connecting ∨ s.playback_state = .playing))

/-- The invariant holding at every rest point between serialized
operations (in particular at every `get_status` read): the spec's full
invariant, plus the fact that `Connecting` is only ever transient. -/
def restStatusInv (s : SystemStatus) : Prop :=
  (s.is_playing = true ↔ s.playback_state = .playing) ∧
  ((s.current_station ≠ none) ↔ s.playback_state = .playing) ∧
  s.playback_state ≠ .connecting

instance (s : SystemStatus) : Decidable (specStatusInv s) := by
  unfold specStatusInv; infer_instance

instance (s : SystemStatus) : Decidable (obsStatusInv s) := by
  unfold obsStatusInv; infer_instance

instance (s : SystemStatus) : Decidable (restStatusInv s) := by
  unfold restStatusInv; infer_instance

theorem clampVolume_nonneg (v : Int) : 0 ≤ clampVolume v := le_max_left 0 _

theorem clampVolume_le (v : Int) : clampVolume v ≤ 100 :=
  max_le (by norm_num) (min_le_left 100 v)

theorem clampVolume_idem (v : Int) : clampVolume (clampVolume v) = clampVolume v := by
  unfold clampVolume
  rcases le_total v 0 with h | h
  · rw [min_eq_right (by omega), max_eq_left (by omega)]
    rw [min_eq_right (by omega), max_eq_left (by omega)]
  · rcases le_total v 100 with h2 | h2
    · rw [min_eq_right h2, max_eq_right h]
      rw [min_eq_right h2, max_eq_right h]
    · rw [min_eq_left h2, max_eq_right (by omega)]
      rw [min_eq_left (by omega), max_eq_right (by omega)]

/-- C5: for every slot with no configured station, `play_station` returns
`false`, raises nothing, performs no backend call or broadcast, and
leaves the whole `SystemStatus` unchanged. -/
theorem play_station_empty_slot (cfg : StationConfig) (ok : Bool) (st : SystemStatus)
    (slot : Nat) (h : getStation cfg slot = some none) :
    play_station cfg ok st slot = (st, [], false) := by
  simp [play_station, h]

theorem play_station_empty_slot_witness :
    play_station { defaultConfig with s2 := none } true (initStatus 50) 2 =
      (initStatus 50, [], false) :=
  play_station_empty_slot { defaultConfig with s2 := none } true (initStatus 50) 2 rfl

/-- C6: `stop_playback` always returns `true`, always calls the backend's
`stop` followed by exactly one status broadcast, resets `is_playing`,
`playback_state` and `current_station`, leaves the volume unchanged, and
called on an already-stopped status it is an observable no-op on the
status while still notifying. -/
theorem stop_playback_spec (st : SystemStatus) :
    (stop_playback st).2.2 = true ∧
    (stop_playback st).1.is_playing = false ∧
    (stop_playback st).1.playback_state = .stopped ∧
    (stop_playback st).1.current_station = none ∧
    (stop_playback st).1.volume = st.volume ∧
    (stop_playback st).2.1 =
      [Obs.audioStop, Obs.statusCast "playback_status" (stop_playback st).1] ∧
    (st.is_playing = false → st.playback_state = .stopped → st.current_station = none →
      st.current_station_info = none → (stop_playback st).1 = st) := by
  refine ⟨rfl, rfl, rfl, rfl, rfl, rfl, ?_⟩
  intro h1 h2 h3 h4
  cases st
  simp_all [stop_playback]

theorem stop_playback_spec_witness :
    (stop_playback (initStatus 50)).1 = initStatus 50 :=
  (stop_playback_spec (initStatus 50)).2.2.2.2.2.2 rfl rfl rfl rfl

/-- C8: `set_volume` on any input in `[-1000, 1000]` leaves the volume in
`[0, 100]`; when the backend call does not raise it stores exactly the
clamped value, calls the backend with that value, broadcasts a
`volume_update` snapshot exactly when `broadcast` is true, and returns
`true`; a raising backend call is caught and converted to a `false`
return with no state change. -/
theorem set_volume_spec (raises : Bool) (st : SystemStatus) (v : Int) (b : Bool)
    (hlo : -1000 ≤ v) (hhi : v ≤ 1000)
    (h0 : 0 ≤ st.volume) (h1 : st.volume ≤ 100) :
    (0 ≤ (set_volume raises st v b).1.volume ∧ (set_volume raises st v b).1.volume ≤ 100) ∧
    (raises = false →
      (set_volume raises st v b).1 = { st with volume := clampVolume v } ∧
      (set_volume raises st v b).2.1 =
        [Obs.audioSetVolume (clampVolume v)] ++
          (if b then
            [Obs.statusCast "volume_update" { st with volume := clampVolume v }]
           else []) ∧
      (set_volume raises st v b).2.2 = true) ∧
    (raises = true → set_volume raises st v b = (st, [], false)) := by
  cases raises with
  | false =>
      exact ⟨⟨clampVolume_nonneg v, clampVolume_le v⟩,
             fun _ => ⟨rfl, rfl, rfl⟩,
             fun h => Bool.noConfusion h⟩
  | true =>
      exact ⟨⟨h0, h1⟩, fun h => Bool.noConfusion h, fun _ => rfl⟩

theorem set_volume_spec_witness :
    0 ≤ (set_volume false (initStatus 50) (-1000) true).1.volume ∧
      (set_volume false (initStatus 50) (-1000) true).1.volume ≤ 100 :=
  (set_volume_spec false (initStatus 50) (-1000) true (by norm_num) (by norm_num)
    (by norm_num [initStatus]) (by norm_num [initStatus])).1

/-- C10: a rotary volume-change event whose clamped target equals the
current volume changes nothing — no backend call, no broadcast, status
unchanged; otherwise exactly one backend `set_volume` call with the
clamped value happens, followed by the `volume_update` broadcast. -/
theorem handle_volume_change_spec (st : SystemStatus) (d : Int) :
    (clampVolume (st.volume + d) = st.volume →
      handle_volume_change false st d = (st, [])) ∧
    (clampVolume (st.volume + d) ≠ st.volume →
      handle_volume_change false st d =
        ({ st with volume := clampVolume (st.volume + d) },
         [Obs.audioSetVolume (clampVolume (st.volume + d)),
          Obs.statusCast "volume_update" { st with volume := clampVolume (st.volume + d) }])) := by
  constructor
  · intro h
    simp [handle_volume_change, h]
  · intro h
    simp [handle_volume_change, h, set_volume, clampVolume_idem]

theorem handle_volume_change_spec_witness :
    handle_volume_change false (initStatus 100) 5 = (initStatus 100, []) :=
  (handle_volume_change_spec (initStatus 100) 5).1 (by decide)

/-- C2 (failing-input evaluation): three press/release interactions of
the rotary switch whose releases (at 10.1, 10.25 and 10.4 seconds) all
fall pairwise within the 0.5 s triple-press window.  The dispatcher
emits the `TriplePress` already on the second release (the count check
`>= 2` fires after two within-window releases, despite the code comment
saying third press) and also emits a `ShortPress` for every one of the
three releases instead of suppressing them. -/
theorem triple_press_code_trace :
    process_interactions true initControlState
        [(10, 10.1), (10.2, 10.25), (10.3, 10.4)] =
      ({ button_state := false, last_press_time := 10.4, press_count := 1 },
       [ButtonEvent.shortPress, ButtonEvent.triplePress,
        ButtonEvent.shortPress, ButtonEvent.shortPress]) := by
  norm_num [process_interactions, process_interaction, handle_button_release,
    check_triple_press, long_press_fires, initControlState,
    LONG_PRESS_DURATION, TRIPLE_PRESS_INTERVAL]

/-- C3 (failing-input evaluation): `_last_press_times` only ever stores
release times, so `press_duration` is the gap since the previous
release, and the first press edge after hardware startup is swallowed by
the `_button_states[pin] = True` initialization.  First conjunct: two
quick (0.1 s) press/release pairs 90 s apart produce only one
`ShortPress` — the second pair emits nothing, because the 90 s gap from
the previous release exceeds the long-press threshold.  Second conjunct:
a first-ever 4 s hold emits no `LongPress` at all (the swallowed press
edge means no monitor task is started) and instead an unsuppressed
`ShortPress` (the stored time is still 0, so the computed duration is
0).  Third conjunct, for contrast: from the second interaction on, a
4 s hold does emit exactly one `LongPress` with the release suppressed —
its computed duration, the gap since the previous release, necessarily
exceeds the hold — so the claim fails only on the inputs of the first
two conjuncts. -/
theorem press_release_code_trace :
    process_interactions true initControlState [(10, 10.1), (100, 100.1)] =
      ({ button_state := false, last_press_time := 100.1, press_count := 1 },
       [ButtonEvent.shortPress]) ∧
    process_interaction true initControlState 10 14 =
      ({ button_state := false, last_press_time := 14, press_count := 1 },
       [ButtonEvent.shortPress]) ∧
    process_interactions true initControlState [(10, 10.1), (100, 104)] =
      ({ button_state := false, last_press_time := 104, press_count := 1 },
       [ButtonEvent.shortPress, ButtonEvent.longPress]) := by
  refine ⟨?_, ?_, ?_⟩
  · norm_num [process_interactions, process_interaction, handle_button_release,
      check_triple_press, long_press_fires, initControlState,
      LONG_PRESS_DURATION, TRIPLE_PRESS_INTERVAL]
  · norm_num [process_interactions, process_interaction, handle_button_release,
      check_triple_press, long_press_fires, initControlState,
      LONG_PRESS_DURATION, TRIPLE_PRESS_INTERVAL]
  · norm_num [process_interactions, process_interaction, handle_button_release,
      check_triple_press, long_press_fires, initControlState,
      LONG_PRESS_DURATION, TRIPLE_PRESS_INTERVAL]

/-- C9: in mock mode, `simulate_button_press k` for `k` in `{1,2,3}`
produces exactly the resulting status and observation trace of a direct
`toggle_station k` call, for every starting state and backend outcome:
the button number round-trips through `pin_map` and `pin_to_slot` into
the same dispatcher/orchestrator path as real hardware. -/
theorem simulate_button_press_eq_toggle (cfg : StationConfig) (ok : Bool) (st : SystemStatus)
    (k : Nat) (hk : k = 1 ∨ k = 2 ∨ k = 3) :
    simulate_button_press cfg ok st k =
      ((toggle_station cfg ok st k).1, (toggle_station cfg ok st k).2.1) := by
  rcases hk with h | h | h <;> subst h <;> rfl

theorem simulate_button_press_eq_toggle_witness :
    simulate_button_press defaultConfig true (initStatus 50) 1 =
      ((toggle_station defaultConfig true (initStatus 50) 1).1,
       (toggle_station defaultConfig true (initStatus 50) 1).2.1) :=
  simulate_button_press_eq_toggle defaultConfig true (initStatus 50) 1 (Or.inl rfl)

/-- C7: with a station configured in the slot, toggling twice from a
stopped status goes Stopped, then Playing, then Stopped, the first call
reporting `true` (now playing) with `is_playing = true` and the second
reporting `false` (now stopped) with `is_playing = false`. -/
theorem toggle_twice_spec (cfg : StationConfig) (slot : Nat) (station : RadioStation)
    (st : SystemStatus) (hs : getStation cfg slot = some (some station))
    (hp : st.is_playing = false) (hst : st.playback_state = .stopped) :
    (toggle_station cfg true st slot).2.2 = true ∧
    (toggle_station cfg true st slot).1.is_playing = true ∧
    (toggle_station cfg true st slot).1.playback_state = .playing ∧
    (toggle_station cfg true st slot).1.current_station = some slot ∧
    (toggle_station cfg true (toggle_station cfg true st slot).1 slot).2.2 = false ∧
    (toggle_station cfg true (toggle_station cfg true st slot).1 slot).1.is_playing = false ∧
    (toggle_station cfg true (toggle_station cfg true st slot).1 slot).1.playback_state =
      .stopped := by
  have h1 : toggle_station cfg true st slot =
      ({ st with playback_state := .playing, current_station := some slot, is_playing := true },
       (if st.is_playing then [Obs.audioStop] else []) ++
         [Obs.statusCast "playback_status"
            { st with playback_state := .connecting, current_station := some slot },
          Obs.audioStart station.url,
          Obs.statusCast "playback_status"
            { st with playback_state := .playing, current_station := some slot,
                      is_playing := true }],
       true) := by
    simp [toggle_station, hp, play_station, hs]
  rw [h1]
  simp [toggle_station, stop_playback]

theorem toggle_twice_spec_witness :
    (toggle_station defaultConfig true
        (toggle_station defaultConfig true (initStatus 50) 1).1 1).1.playback_state =
      .stopped :=
  (toggle_twice_spec defaultConfig 1
    { name := "SRF 3", url := "https://stream.srg-ssr.ch/m/srf3/mp3_128" }
    (initStatus 50) rfl rfl rfl).2.2.2.2.2.2

/-- C4 (counterexample): `RadioManager.set_volume` acquires no lock at
all — its body contains no `async with self._playback_lock` — so the
claim that all four playback-mutating operations each hold the mutual
exclusion lock for their entire duration is false. -/
theorem set_volume_holds_no_lock : holdsPlaybackLock MutatingOp.setVolume = false := rfl

/-- C4 (amended): `play_station` and `stop_playback` each hold the
playback lock for their whole body, so two play calls serialize; played
one after the other from the initial state, exactly the second station
ends up `Playing` and the backend start/stop call sequence never has two
active streams (each start is preceded by a stop of the active one). -/
theorem serialized_plays_no_overlap (cfg : StationConfig) (s1 s2 : Nat)
    (st1 st2 : RadioStation)
    (h1 : getStation cfg s1 = some (some st1)) (h2 : getStation cfg s2 = some (some st2)) :
    holdsPlaybackLock MutatingOp.play = true ∧
    holdsPlaybackLock MutatingOp.stop = true ∧
    (run cfg (initStatus 50) [.play s1 true, .play s2 true]).1.is_playing = true ∧
    (run cfg (initStatus 50) [.play s1 true, .play s2 true]).1.playback_state = .playing ∧
    (run cfg (initStatus 50) [.play s1 true, .play s2 true]).1.current_station = some s2 ∧
    audioNoOverlap false (run cfg (initStatus 50) [.play s1 true, .play s2 true]).2 = true := by
  simp [run, runOp, play_station, h1, h2, initStatus, audioNoOverlap, holdsPlaybackLock]

theorem serialized_plays_no_overlap_witness :
    audioNoOverlap false
        (run defaultConfig (initStatus 50) [.play 1 true, .play 2 true]).2 = true :=
  (serialized_plays_no_overlap defaultConfig 1 2
    { name := "SRF 3", url := "https://stream.srg-ssr.ch/m/srf3/mp3_128" }
    { name := "Radio Swiss Jazz", url := "https://stream.srg-ssr.ch/m/rsj/mp3_128" }
    rfl rfl).2.2.2.2.2

/-- C1 (counterexample): the run `play 1; play 2` from the initial state
broadcasts a snapshot — the `Connecting` notification of the second
play, issued while the first stream's `is_playing = true` has not yet
been cleared — that violates the claimed invariant
`is_playing == true iff playback_state == Playing`. -/
theorem play_switch_breaks_spec_inv :
    ¬ (∀ snap ∈ statusSnaps (run defaultConfig (initStatus 50) [.play 1 true, .play 2 true]).2,
        specStatusInv snap) := by
  intro h
  have := h
    { current_station := some 2, volume := 50, is_playing := true,
      playback_state := .connecting, current_station_info := none }
    (by decide)
  exact absurd this (by decide)

theorem obs_of_rest (s : SystemStatus) (h : restStatusInv s) : obsStatusInv s := by
  obtain ⟨h1, h2, h3⟩ := h
  refine ⟨fun hp => h1.mpr hp, fun hp => Or.inl (h1.mp hp), ?_⟩
  constructor
  · intro hc
    exact Or.inr (h2.mp hc)
  · intro hc
    rcases hc with hc | hc
    · exact absurd hc h3
    · exact h2.mpr hc

theorem play_station_inv (cfg : StationConfig) (ok : Bool) (st : SystemStatus) (slot : Nat)
    (h : restStatusInv st) :
    restStatusInv (play_station cfg ok st slot).1 ∧
    ∀ snap ∈ statusSnaps (play_station cfg ok st slot).2.1, obsStatusInv snap := by
  unfold play_station
  match hg : getStation cfg slot with
  | none =>
      refine ⟨⟨by simp, by simp, by simp⟩, ?_⟩
      intro snap hsnap
      simp [statusSnaps] at hsnap
      subst hsnap
      exact ⟨by simp, by simp, by simp⟩
  | some none =>
      exact ⟨h, by simp [statusSnaps]⟩
  | some (some station) =>
      cases ok with
      | true =>
          refine ⟨⟨by simp, by simp, by simp⟩, ?_⟩
          intro snap hsnap
          by_cases hp : st.is_playing = true <;>
            simp [statusSnaps, hp] at hsnap <;>
            rcases hsnap with hsnap | hsnap <;> subst hsnap <;>
            exact ⟨by simp, by simp, by simp⟩
      | false =>
          refine ⟨⟨by simp, by simp, by simp⟩, ?_⟩
          intro snap hsnap
          by_cases hp : st.is_playing = true <;>
            simp [statusSnaps, hp] at hsnap <;>
            rcases hsnap with hsnap | hsnap <;> subst hsnap <;>
            exact ⟨by simp, by simp, by simp⟩

theorem stop_playback_inv (st : SystemStatus) :
    restStatusInv (stop_playback st).1 ∧
    ∀ snap ∈ statusSnaps (stop_playback st).2.1, obsStatusInv snap := by
  refine ⟨⟨by simp [stop_playback], by simp [stop_playback], by simp [stop_playback]⟩, ?_⟩
  intro snap hsnap
  simp [stop_playback, statusSnaps] at hsnap
  subst hsnap
  exact ⟨by simp, by simp, by simp⟩

theorem set_volume_inv (raises : Bool) (st : SystemStatus) (v : Int) (b : Bool)
    (h : restStatusInv st) :
    restStatusInv (set_volume raises st v b).1 ∧
    ∀ snap ∈ statusSnaps (set_volume raises st v b).2.1, obsStatusInv snap := by
  obtain ⟨h1, h2, h3⟩ := h
  cases raises with
  | true => exact ⟨⟨h1, h2, h3⟩, by simp [set_volume, statusSnaps]⟩
  | false =>
      refine ⟨⟨h1, h2, h3⟩, ?_⟩
      intro snap hsnap
      cases b with
      | false => simp [set_volume, statusSnaps] at hsnap
      | true =>
          simp [set_volume, statusSnaps] at hsnap
          subst hsnap
          exact obs_of_rest _ ⟨h1, h2, h3⟩

theorem toggle_station_inv (cfg : StationConfig) (ok : Bool) (st : SystemStatus) (slot : Nat)
    (h : restStatusInv st) :
    restStatusInv (toggle_station cfg ok st slot).1 ∧
    ∀ snap ∈ statusSnaps (toggle_station cfg ok st slot).2.1, obsStatusInv snap := by
  unfold toggle_station
  by_cases hc : st.current_station = some slot ∧ st.is_playing = true
  · simpa [hc] using stop_playback_inv st
  · simpa [hc] using play_station_inv cfg ok st slot h

theorem handle_volume_change_inv (raises : Bool) (st : SystemStatus) (d : Int)
    (h : restStatusInv st) :
    restStatusInv (handle_volume_change raises st d).1 ∧
    ∀ snap ∈ statusSnaps (handle_volume_change raises st d).2, obsStatusInv snap := by
  unfold handle_volume_change
  by_cases hc : clampVolume (st.volume + d) ≠ st.volume
  · simpa [hc] using set_volume_inv raises st (clampVolume (st.volume + d)) true h
  · exact ⟨by simpa [hc] using h, by simp [hc, statusSnaps]⟩

theorem runOp_inv (cfg : StationConfig) (st : SystemStatus) (op : RadioOp)
    (h : restStatusInv st) :
    restStatusInv (runOp cfg st op).1 ∧
    ∀ snap ∈ statusSnaps (runOp cfg st op).2, obsStatusInv snap := by
  cases op with
  | play slot ok => exact play_station_inv cfg ok st slot h
  | stop => exact stop_playback_inv st
  | toggle slot ok => exact toggle_station_inv cfg ok st slot h
  | setVol v b raises => exact set_volume_inv raises st v b h
  | volChange d raises => exact handle_volume_change_inv raises st d h

theorem run_inv (cfg : StationConfig) (ops : List RadioOp) :
    ∀ (st : SystemStatus), restStatusInv st →
      restStatusInv (run cfg st ops).1 ∧
      ∀ snap ∈ statusSnaps (run cfg st ops).2, obsStatusInv snap := by
  induction ops with
  | nil => exact fun st h => ⟨h, by simp [run, statusSnaps]⟩
  | cons op ops ih =>
      intro st h
      obtain ⟨hrest, hobs⟩ := runOp_inv cfg st op h
      obtain ⟨hrest2, hobs2⟩ := ih (runOp cfg st op).1 hrest
      refine ⟨hrest2, ?_⟩
      intro snap hsnap
      simp only [run, statusSnaps, List.filterMap_append, List.mem_append] at hsnap
      rcases hsnap with hsnap | hsnap
      · exact hobs snap (by simpa [statusSnaps] using hsnap)
      · exact hobs2 snap (by simpa [statusSnaps] using hsnap)

/-- C1 (amended): for every serialized operation sequence from the
initial status, the final status (and hence every `get_status` read at a
rest point) satisfies the full invariant — `is_playing` iff `Playing`,
`current_slot` set iff `Playing`, and `Connecting` is only transient —
while every broadcast snapshot satisfies the weakened invariant:
`Playing` implies `is_playing`, `is_playing` implies `Playing` or
`Connecting` (the `Connecting` notification of a play issued while a
stream is active still carries `is_playing = true`), and `current_slot`
is set iff the snapshot state is `Connecting` or `Playing`. -/
theorem observable_status_invariant (cfg : StationConfig) (ops : List RadioOp) :
    restStatusInv (run cfg (initStatus 50) ops).1 ∧
    ∀ snap ∈ statusSnaps (run cfg (initStatus 50) ops).2, obsStatusInv snap :=
  run_inv cfg ops (initStatus 50) ⟨by simp [initStatus], by simp [initStatus], by simp [initStatus]⟩

theorem observable_status_invariant_witness :
    obsStatusInv
      { current_station := some 2, volume := 50, is_playing := true,
        playback_state := .connecting, current_station_info := none } :=
  (observable_status_invariant defaultConfig [.play 1 true, .play 2 true]).2
    { current_station := some 2, volume := 50, is_playing := true,
      playback_state := .connecting, current_station_info := none }
    (by decide)

end RadioCore
